import Mathlib

/-!
# Verification of the mux-simulive synchronization core

Shallow embedding of the time-synchronization and drift-correction core of
the simulated-live streaming repository:

* `src/lib/simulive.ts` — `calculateSimuliveState`, `hasDrifted`
  (the pure Playback State Engine);
* `src/components/SimulatedLivePlayer.tsx` and the unnamed variant of the
  same component — the `calibrateTime` clock-calibration routines.

JavaScript numbers are modelled by `JSNum`: either `nan` or a rational.
Every comparison involving `nan` is `false` and every arithmetic operation
with a `nan` operand yields `nan`, matching IEEE-754 / ECMAScript semantics
for the operations the source uses (`-`, `/` by the nonzero literal 1000,
unary minus, `Math.max`, `Math.min`, `Math.abs`, `>=`, `<`, `>`).
Finite-precision rounding is abstracted to exact rational arithmetic; all
claims considered here are about orderings, clamping and exact linear
relations that this abstraction preserves.
-/

/-- A JavaScript number: `NaN` or a (finite) numeric value, modelled as a
rational. Infinities never arise in the embedded code paths. -/
inductive JSNum where
  | nan : JSNum
  | num : ℚ → JSNum
deriving DecidableEq, Repr

namespace JSNum

/-- JavaScript subtraction `a - b`: `NaN` if either operand is `NaN`. -/
def sub : JSNum → JSNum → JSNum
  | num a, num b => num (a - b)
  | _, _ => nan

/-- JavaScript addition `a + b`: `NaN` if either operand is `NaN`. -/
def add : JSNum → JSNum → JSNum
  | num a, num b => num (a + b)
  | _, _ => nan

/-- JavaScript division by a fixed nonzero numeric literal (the source only
divides by the literal `1000`). `NaN` divided by anything is `NaN`. -/
def divBy (x : JSNum) (c : ℚ) : JSNum :=
  match x with
  | num a => num (a / c)
  | nan => nan

/-- JavaScript unary minus: `-NaN = NaN`. -/
def neg : JSNum → JSNum
  | num a => num (-a)
  | nan => nan

/-- JavaScript `a >= b`: `false` whenever an operand is `NaN`. -/
def jge : JSNum → JSNum → Bool
  | num a, num b => decide (b ≤ a)
  | _, _ => false

/-- JavaScript `a < b`: `false` whenever an operand is `NaN`. -/
def jlt : JSNum → JSNum → Bool
  | num a, num b => decide (a < b)
  | _, _ => false

/-- JavaScript `a > b`: `false` whenever an operand is `NaN`. -/
def jgt : JSNum → JSNum → Bool
  | num a, num b => decide (b < a)
  | _, _ => false

/-- `Math.max` on two arguments: `NaN` if either argument is `NaN`. -/
def jmax : JSNum → JSNum → JSNum
  | num a, num b => num (max a b)
  | _, _ => nan

/-- `Math.min` on two arguments: `NaN` if either argument is `NaN`. -/
def jmin : JSNum → JSNum → JSNum
  | num a, num b => num (min a b)
  | _, _ => nan

/-- `Math.abs`: `NaN` maps to `NaN`. -/
def jabs : JSNum → JSNum
  | num a => num |a|
  | nan => nan

end JSNum

open JSNum

/-- `SimuliveConfig` from `src/lib/simulive.ts`.

The source field `scheduledStart : string | Date` is consumed by
`calculateSimuliveState` only through
`new Date(s).getTime()` / `d.getTime()`; it is represented here by that
resulting millisecond value `scheduledStartMs`, which is `JSNum.nan`
exactly when the string is unparsable (`getTime()` of an invalid `Date`).
`syncInterval` and `driftTolerance` are optional in the source and unused
by the state computation. -/
structure SimuliveConfig where
  scheduledStartMs : JSNum
  videoDuration : JSNum
  syncInterval : Option JSNum := none
  driftTolerance : Option JSNum := none
deriving DecidableEq, Repr

/-- `SimuliveState` from `src/lib/simulive.ts`. -/
structure SimuliveState where
  isLive : Bool
  hasEnded : Bool
  currentPosition : JSNum
  secondsUntilStart : JSNum
  secondsRemaining : JSNum
deriving DecidableEq, Repr

/-- `calculateSimuliveState` from `src/lib/simulive.ts` (lines 36–67):

```
const elapsedMs = serverTimeMs - scheduledStartMs;
const elapsedSeconds = elapsedMs / 1000;
const isLive = elapsedSeconds >= 0 && elapsedSeconds < config.videoDuration;
const hasEnded = elapsedSeconds >= config.videoDuration;
const currentPosition = Math.max(0, Math.min(elapsedSeconds, config.videoDuration));
const secondsUntilStart = Math.max(0, -elapsedSeconds);
const secondsRemaining = Math.max(0, config.videoDuration - elapsedSeconds);
```
-/
def calculateSimuliveState (serverTimeMs : JSNum) (config : SimuliveConfig) :
    SimuliveState :=
  let scheduledStartMs := config.scheduledStartMs
  let elapsedMs := serverTimeMs.sub scheduledStartMs
  let elapsedSeconds := elapsedMs.divBy 1000
  let isLive := elapsedSeconds.jge (num 0) && elapsedSeconds.jlt config.videoDuration
  let hasEnded := elapsedSeconds.jge config.videoDuration
  let currentPosition := jmax (num 0) (jmin elapsedSeconds config.videoDuration)
  let secondsUntilStart := jmax (num 0) elapsedSeconds.neg
  let secondsRemaining := jmax (num 0) (config.videoDuration.sub elapsedSeconds)
  { isLive := isLive
    hasEnded := hasEnded
    currentPosition := currentPosition
    secondsUntilStart := secondsUntilStart
    secondsRemaining := secondsRemaining }

/-- `hasDrifted` from `src/lib/simulive.ts` (lines 72–78):
`Math.abs(actualPosition - expectedPosition) > tolerance`
(`tolerance` defaults to 3). -/
def hasDrifted (actualPosition expectedPosition : JSNum)
    (tolerance : JSNum := num 3) : Bool :=
  (jabs (actualPosition.sub expectedPosition)).jgt tolerance

/-- Evaluation of `calculateSimuliveState` on finite (non-`NaN`) inputs,
written out over the rationals. All claim proofs about finite inputs go
through this normal form. -/
theorem calculateSimuliveState_num (t s d : ℚ) (si dt : Option JSNum) :
    calculateSimuliveState (num t)
      { scheduledStartMs := num s, videoDuration := num d,
        syncInterval := si, driftTolerance := dt } =
      { isLive := decide (0 ≤ (t - s) / 1000) && decide ((t - s) / 1000 < d)
        hasEnded := decide (d ≤ (t - s) / 1000)
        currentPosition := num (max 0 (min ((t - s) / 1000) d))
        secondsUntilStart := num (max 0 (-((t - s) / 1000)))
        secondsRemaining := num (max 0 (d - (t - s) / 1000)) } := by
  rfl

/-- Claim C1: for every schedule with `videoDuration ≥ 0` and every synced
time whose elapsed seconds `(t - s)/1000` is at least `videoDuration`,
`calculateSimuliveState` reports `hasEnded = true`, `isLive = false` and
`currentPosition = videoDuration`. The upper boundary
`elapsed = videoDuration` and the degenerate `videoDuration = 0` case are
instances. -/
theorem C1_ended_region (t s d : ℚ) (si dt : Option JSNum)
    (hd : 0 ≤ d) (h : d ≤ (t - s) / 1000) :
    (calculateSimuliveState (num t) ⟨num s, num d, si, dt⟩).hasEnded = true ∧
    (calculateSimuliveState (num t) ⟨num s, num d, si, dt⟩).isLive = false ∧
    (calculateSimuliveState (num t) ⟨num s, num d, si, dt⟩).currentPosition
      = num d := by
  rw [calculateSimuliveState_num]
  refine ⟨by simpa using h, ?_, ?_⟩
  · simp [not_lt.mpr h]
  · rw [min_eq_right h, max_eq_right hd]

/-- Witness for C1, at the exact upper boundary: start `T = 0`,
duration 100 s, evaluated at `T + 100000 ms` (elapsed = duration). -/
theorem C1_ended_region_witness :
    (0:ℚ) ≤ 100 ∧ (100:ℚ) ≤ ((100000:ℚ) - 0) / 1000 ∧
    ((calculateSimuliveState (num 100000) ⟨num 0, num 100, none, none⟩).hasEnded
        = true ∧
      (calculateSimuliveState (num 100000) ⟨num 0, num 100, none, none⟩).isLive
        = false ∧
      (calculateSimuliveState (num 100000)
          ⟨num 0, num 100, none, none⟩).currentPosition = num 100) :=
  ⟨by norm_num, by norm_num,
    C1_ended_region 100000 0 100 none none (by norm_num) (by norm_num)⟩

/-- Claim C2: for every schedule and synced time with
`0 ≤ elapsed < videoDuration`, `calculateSimuliveState` reports
`isLive = true`, `hasEnded = false`, `currentPosition = elapsed` and
`secondsRemaining = videoDuration - elapsed`. -/
theorem C2_live_region (t s d : ℚ) (si dt : Option JSNum)
    (h0 : 0 ≤ (t - s) / 1000) (h1 : (t - s) / 1000 < d) :
    (calculateSimuliveState (num t) ⟨num s, num d, si, dt⟩).isLive = true ∧
    (calculateSimuliveState (num t) ⟨num s, num d, si, dt⟩).hasEnded = false ∧
    (calculateSimuliveState (num t) ⟨num s, num d, si, dt⟩).currentPosition
      = num ((t - s) / 1000) ∧
    (calculateSimuliveState (num t) ⟨num s, num d, si, dt⟩).secondsRemaining
      = num (d - (t - s) / 1000) := by
  rw [calculateSimuliveState_num]
  refine ⟨by simp [h0, h1], by simp [not_le.mpr h1], ?_, ?_⟩
  · rw [min_eq_left h1.le, max_eq_right h0]
  · rw [max_eq_right (by linarith : (0:ℚ) ≤ d - (t - s) / 1000)]

/-- Witness for C2: the spec's end-to-end scenario, duration 3600 s,
evaluated 30 minutes (1 800 000 ms) after the start. -/
theorem C2_live_region_witness :
    (0:ℚ) ≤ ((1800000:ℚ) - 0) / 1000 ∧ ((1800000:ℚ) - 0) / 1000 < 3600 ∧
    ((calculateSimuliveState (num 1800000) ⟨num 0, num 3600, none, none⟩).isLive
        = true ∧
      (calculateSimuliveState (num 1800000)
          ⟨num 0, num 3600, none, none⟩).hasEnded = false ∧
      (calculateSimuliveState (num 1800000)
          ⟨num 0, num 3600, none, none⟩).currentPosition
        = num ((1800000 - 0) / 1000) ∧
      (calculateSimuliveState (num 1800000)
          ⟨num 0, num 3600, none, none⟩).secondsRemaining
        = num (3600 - (1800000 - 0) / 1000)) :=
  ⟨by norm_num, by norm_num,
    C2_live_region 1800000 0 3600 none none (by norm_num) (by norm_num)⟩

/-- Claim C3: for every schedule (whose `videoDuration` satisfies the data
model invariant `videoDuration ≥ 0`) and synced time with elapsed seconds
strictly negative, `calculateSimuliveState` reports `isLive = false`,
`hasEnded = false`, `currentPosition = 0` and
`secondsUntilStart = -elapsed`. -/
theorem C3_preroll_region (t s d : ℚ) (si dt : Option JSNum)
    (hd : 0 ≤ d) (h : (t - s) / 1000 < 0) :
    (calculateSimuliveState (num t) ⟨num s, num d, si, dt⟩).isLive = false ∧
    (calculateSimuliveState (num t) ⟨num s, num d, si, dt⟩).hasEnded = false ∧
    (calculateSimuliveState (num t) ⟨num s, num d, si, dt⟩).currentPosition
      = num 0 ∧
    (calculateSimuliveState (num t) ⟨num s, num d, si, dt⟩).secondsUntilStart
      = num (-((t - s) / 1000)) := by
  rw [calculateSimuliveState_num]
  refine ⟨by simp [not_le.mpr h], by simp [not_le.mpr (lt_of_lt_of_le h hd)],
    ?_, ?_⟩
  · rw [min_eq_left (by linarith : (t - s) / 1000 ≤ d), max_eq_left h.le]
  · rw [max_eq_right (by linarith : (0:ℚ) ≤ -((t - s) / 1000))]

/-- Witness for C3: the spec's pre-roll scenario, evaluated 60 s
(−60 000 ms) before the scheduled start. -/
theorem C3_preroll_region_witness :
    (0:ℚ) ≤ 3600 ∧ (((-60000:ℚ)) - 0) / 1000 < 0 ∧
    ((calculateSimuliveState (num (-60000)) ⟨num 0, num 3600, none, none⟩).isLive
        = false ∧
      (calculateSimuliveState (num (-60000))
          ⟨num 0, num 3600, none, none⟩).hasEnded = false ∧
      (calculateSimuliveState (num (-60000))
          ⟨num 0, num 3600, none, none⟩).currentPosition = num 0 ∧
      (calculateSimuliveState (num (-60000))
          ⟨num 0, num 3600, none, none⟩).secondsUntilStart
        = num (-((-60000 - 0) / 1000))) :=
  ⟨by norm_num, by norm_num,
    C3_preroll_region (-60000) 0 3600 none none (by norm_num) (by norm_num)⟩

/-- Claim C4: for every schedule with `videoDuration ≥ 0` and every finite
synced time, exactly one of pre-roll (`secondsUntilStart > 0`), `isLive`,
`hasEnded` holds in the returned state. -/
theorem C4_exactly_one_phase (t s d : ℚ) (si dt : Option JSNum) (hd : 0 ≤ d) :
    ((num 0).jlt
        (calculateSimuliveState (num t) ⟨num s, num d, si, dt⟩).secondsUntilStart
          = true ∧
      (calculateSimuliveState (num t) ⟨num s, num d, si, dt⟩).isLive = false ∧
      (calculateSimuliveState (num t) ⟨num s, num d, si, dt⟩).hasEnded = false) ∨
    ((num 0).jlt
        (calculateSimuliveState (num t) ⟨num s, num d, si, dt⟩).secondsUntilStart
          = false ∧
      (calculateSimuliveState (num t) ⟨num s, num d, si, dt⟩).isLive = true ∧
      (calculateSimuliveState (num t) ⟨num s, num d, si, dt⟩).hasEnded = false) ∨
    ((num 0).jlt
        (calculateSimuliveState (num t) ⟨num s, num d, si, dt⟩).secondsUntilStart
          = false ∧
      (calculateSimuliveState (num t) ⟨num s, num d, si, dt⟩).isLive = false ∧
      (calculateSimuliveState (num t) ⟨num s, num d, si, dt⟩).hasEnded = true) := by
  rw [calculateSimuliveState_num]
  rcases lt_or_le ((t - s) / 1000) 0 with he | he
  · left
    refine ⟨?_, ?_, ?_⟩
    · simp [JSNum.jlt, lt_max_iff]
      linarith
    · simp [not_le.mpr he]
    · simp [not_le.mpr (lt_of_lt_of_le he hd)]
  · rcases lt_or_le ((t - s) / 1000) d with hl | hl
    · right; left
      refine ⟨?_, ?_, ?_⟩
      · simp [JSNum.jlt, lt_max_iff]
        linarith
      · simp [he, hl]
      · simp [not_le.mpr hl]
    · right; right
      refine ⟨?_, ?_, ?_⟩
      · simp [JSNum.jlt, lt_max_iff]
        linarith
      · simp [not_lt.mpr hl]
      · simp [hl]

/-- Witness for C4, in the live phase: duration 3600 s, evaluated 1800 s
after the start. -/
theorem C4_exactly_one_phase_witness :
    (0:ℚ) ≤ 3600 ∧
    (((num 0).jlt
        (calculateSimuliveState (num 1800000)
          ⟨num 0, num 3600, none, none⟩).secondsUntilStart = true ∧
      (calculateSimuliveState (num 1800000)
          ⟨num 0, num 3600, none, none⟩).isLive = false ∧
      (calculateSimuliveState (num 1800000)
          ⟨num 0, num 3600, none, none⟩).hasEnded = false) ∨
    ((num 0).jlt
        (calculateSimuliveState (num 1800000)
          ⟨num 0, num 3600, none, none⟩).secondsUntilStart = false ∧
      (calculateSimuliveState (num 1800000)
          ⟨num 0, num 3600, none, none⟩).isLive = true ∧
      (calculateSimuliveState (num 1800000)
          ⟨num 0, num 3600, none, none⟩).hasEnded = false) ∨
    ((num 0).jlt
        (calculateSimuliveState (num 1800000)
          ⟨num 0, num 3600, none, none⟩).secondsUntilStart = false ∧
      (calculateSimuliveState (num 1800000)
          ⟨num 0, num 3600, none, none⟩).isLive = false ∧
      (calculateSimuliveState (num 1800000)
          ⟨num 0, num 3600, none, none⟩).hasEnded = true)) :=
  ⟨by norm_num, C4_exactly_one_phase 1800000 0 3600 none none (by norm_num)⟩

/-- Claim C10: once the broadcast has started (elapsed ≥ 0) and the
duration is non-negative, the clamped position and the remaining time
always account for the whole duration:
`currentPosition + secondsRemaining = videoDuration`. -/
theorem C10_position_plus_remaining (t s d : ℚ) (si dt : Option JSNum)
    (hd : 0 ≤ d) (h0 : 0 ≤ (t - s) / 1000) :
    ((calculateSimuliveState (num t) ⟨num s, num d, si, dt⟩).currentPosition).add
        (calculateSimuliveState (num t) ⟨num s, num d, si, dt⟩).secondsRemaining
      = num d := by
  rw [calculateSimuliveState_num]
  rcases le_or_lt ((t - s) / 1000) d with hl | hl
  · rw [min_eq_left hl, max_eq_right h0,
      max_eq_right (by linarith : (0:ℚ) ≤ d - (t - s) / 1000)]
    simp [JSNum.add]
  · rw [min_eq_right hl.le, max_eq_right hd,
      max_eq_left (by linarith : d - (t - s) / 1000 ≤ 0)]
    simp [JSNum.add]

/-- Witness for C10, past the end of the video (position clamped to the
duration, zero remaining): duration 3600 s, evaluated 3601 s after start. -/
theorem C10_position_plus_remaining_witness :
    (0:ℚ) ≤ 3600 ∧ (0:ℚ) ≤ ((3601000:ℚ) - 0) / 1000 ∧
    ((calculateSimuliveState (num 3601000)
          ⟨num 0, num 3600, none, none⟩).currentPosition).add
        (calculateSimuliveState (num 3601000)
          ⟨num 0, num 3600, none, none⟩).secondsRemaining = num 3600 :=
  ⟨by norm_num, by norm_num,
    C10_position_plus_remaining 3601000 0 3600 none none (by norm_num)
      (by norm_num)⟩

/-- A sequence of calls to `calculateSimuliveState`, one per listed input.
The state engine holds no mutable state, so a call history is just a map
over the inputs; this definition makes that freedom from history explicit
for the purity claim. -/
def runCalls (calls : List (JSNum × SimuliveConfig)) : List SimuliveState :=
  calls.map fun c => calculateSimuliveState c.1 c.2

/-- Claim C9: `calculateSimuliveState` is deterministic and free of
internal state. A call on `(t, c)` returns `calculateSimuliveState t c`
whatever calls preceded it, so two calls with identical inputs after any
two histories return states identical in every field. -/
theorem C9_deterministic_stateless (prior other : List (JSNum × SimuliveConfig))
    (t : JSNum) (c : SimuliveConfig) :
    (runCalls (prior ++ [(t, c)])).getLast? = some (calculateSimuliveState t c) ∧
    (runCalls (prior ++ [(t, c)])).getLast?
      = (runCalls (other ++ [(t, c)])).getLast? := by
  have key : ∀ l : List (JSNum × SimuliveConfig),
      (runCalls (l ++ [(t, c)])).getLast? = some (calculateSimuliveState t c) := by
    intro l
    simp [runCalls]
  exact ⟨key prior, (key prior).trans (key other).symm⟩

/-- Claim C8: `hasDrifted` is the strict comparison
`|actual - expected| > tolerance`; in particular
`hasDrifted 10 10.5 3 = false`, `hasDrifted 10 14 3 = true`, and
`hasDrifted x x 0 = false` for every `x`. -/
theorem C8_hasDrifted_strict (a e tol : ℚ) :
    (hasDrifted (num a) (num e) (num tol) = true ↔ tol < |a - e|) ∧
    hasDrifted (num 10) (num (21 / 2)) (num 3) = false ∧
    hasDrifted (num 10) (num 14) (num 3) = true ∧
    ∀ x : ℚ, hasDrifted (num x) (num x) (num 0) = false := by
  refine ⟨?_, ?_, ?_, ?_⟩
  · simp [hasDrifted, JSNum.sub, jabs, JSNum.jgt]
  · simp [hasDrifted, JSNum.sub, jabs, JSNum.jgt]
    rw [abs_of_neg (by norm_num : (10:ℚ) - 21 / 2 < 0)]
    norm_num
  · simp [hasDrifted, JSNum.sub, jabs, JSNum.jgt]
    rw [abs_of_neg (by norm_num : (10:ℚ) - 14 < 0)]
    norm_num
  · intro x
    simp [hasDrifted, JSNum.sub, jabs, JSNum.jgt]

/-- The offset computation of `calibrateTime` in the unnamed variant of the
player component (src/unnamed/part_009, lines 62–79):

```
const before = Date.now();
const serverTime = await fetchServerTime();
const after = Date.now();
const latency = (after - before) / 2;
const offset = serverTime - (before + latency);
```

`before` and `after` are the local times sampled immediately before and
after the round trip. -/
def calibrateOffsetHalfRtt (before serverTime after : ℚ) : ℚ :=
  let latency := (after - before) / 2
  serverTime - (before + latency)

/-- The offset computation of `calibrateTime` in
src/src/components/SimulatedLivePlayer.tsx (lines 82–94):

```
const serverTime = await fetchServerTime();
const now = Date.now();
const offset = serverTime - now;
```

Local time is sampled only once, after the round trip completes; there is
no `before` sample and no half-round-trip correction. -/
def calibrateOffsetAfterOnly (serverTime now : ℚ) : ℚ :=
  serverTime - now

/-- Counterexample to claim C5 on the shipped component: with local time
1000 ms before and 1200 ms after the round trip and a server reply of
6000 ms, `calibrateTime` in SimulatedLivePlayer.tsx computes
`serverTime - t1 = 4800`, not the claimed
`serverTime - (t0 + (t1 - t0)/2) = 4900`. -/
theorem C5_cex_no_half_rtt :
    calibrateOffsetAfterOnly 6000 1200 ≠ 6000 - (1000 + (1200 - 1000) / 2) := by
  norm_num [calibrateOffsetAfterOnly]

/-- Claim C5 as amended: the unnamed variant's `calibrateTime` records `t0`
and `t1` around the round trip and computes
`offset = serverTime - (t0 + (t1 - t0)/2)`, and when the server samples its
clock `d` ms into a round trip of `t1 - t0` ms (`0 ≤ d ≤ t1 - t0`) with
true server-minus-local offset `skew` (so `serverTime = t0 + d + skew`),
the computed offset differs from `skew` by at most half the round trip;
the shipped component's `calibrateTime` instead computes
`offset = serverTime - t1` with no correction. -/
theorem C5_half_rtt_correction (t0 t1 skew d : ℚ)
    (h0 : 0 ≤ d) (h1 : d ≤ t1 - t0) :
    calibrateOffsetHalfRtt t0 (t0 + d + skew) t1
        = (t0 + d + skew) - (t0 + (t1 - t0) / 2) ∧
    |calibrateOffsetHalfRtt t0 (t0 + d + skew) t1 - skew| ≤ (t1 - t0) / 2 ∧
    calibrateOffsetAfterOnly (t0 + d + skew) t1 = (t0 + d + skew) - t1 := by
  refine ⟨rfl, ?_, rfl⟩
  have hval : calibrateOffsetHalfRtt t0 (t0 + d + skew) t1 - skew
      = d - (t1 - t0) / 2 := by
    simp only [calibrateOffsetHalfRtt]
    ring
  rw [hval, abs_le]
  constructor <;> linarith

/-- Witness for the amended C5: the spec's calibration scenario, a 200 ms
round trip (`t0 = 1000`, `t1 = 1200`) with a true offset of +5000 ms and
the server sampling 50 ms into the round trip. -/
theorem C5_half_rtt_correction_witness :
    (0:ℚ) ≤ 50 ∧ (50:ℚ) ≤ 1200 - 1000 ∧
    (calibrateOffsetHalfRtt 1000 (1000 + 50 + 5000) 1200
        = (1000 + 50 + 5000) - (1000 + (1200 - 1000) / 2) ∧
      |calibrateOffsetHalfRtt 1000 (1000 + 50 + 5000) 1200 - 5000|
        ≤ (1200 - 1000) / 2 ∧
      calibrateOffsetAfterOnly (1000 + 50 + 5000) 1200
        = (1000 + 50 + 5000) - 1200) :=
  ⟨by norm_num, by norm_num,
    C5_half_rtt_correction 1000 1200 5000 50 (by norm_num) (by norm_num)⟩

/-- One invocation of `calibrateTime` from
src/src/components/SimulatedLivePlayer.tsx (lines 82–94), modelled as an
update of the stored `serverTimeOffset` state. `fetchResult` is
`some serverTime` when the `fetchServerTime` round trip succeeds and `none`
when it throws (network error, malformed response); `now` is `Date.now()`
on the success path; `prevOffset` is the stored offset before the call.
The `try`/`catch` in the source means every invocation completes by storing
a new offset and never rethrows — hence a total function into ℚ, with the
`none` branch embedding `catch { setServerTimeOffset(0) }`. The unnamed
variant (src/unnamed/part_009) has the identical `catch` branch. -/
def calibrateTimeUpdate (fetchResult : Option ℚ) (now prevOffset : ℚ) : ℚ :=
  match fetchResult with
  | some serverTime => serverTime - now
  | none => 0

/-- Counterexample to claim C6: after a successful calibration stored an
offset of 5000 ms, a failed calibration does not leave the offset at its
previous value — the `catch` branch stores 0. -/
theorem C6_cex_fail_discards_prev :
    calibrateTimeUpdate none 0 5000 ≠ 5000 := by
  norm_num [calibrateTimeUpdate]

/-- Claim C6 as amended: calibration never throws to its caller (the
update is a total function of the fetch outcome), and on failure the
stored offset is reset to 0 regardless of any previously successful value;
on success it becomes `serverTime - now`. -/
theorem C6_fail_resets_to_zero (now prev serverTime : ℚ) :
    calibrateTimeUpdate none now prev = 0 ∧
    calibrateTimeUpdate (some serverTime) now prev = serverTime - now := by
  exact ⟨rfl, rfl⟩

/-- Counterexample to claim C7: with an unparsable `scheduledStart`
(`getTime()` returns `NaN`) and synced time 0 on a 100 s video, the elapsed
time is `NaN` and `calculateSimuliveState` reports `hasEnded = false`, not
the claimed `hasEnded = true`. -/
theorem C7_cex_nan_not_ended :
    (calculateSimuliveState (num 0)
        { scheduledStartMs := JSNum.nan, videoDuration := num 100 }).hasEnded
      = false := by
  rfl

/-- Claim C7 as amended: when the elapsed time inside
`calculateSimuliveState` is `NaN`, the function still returns a state (it
cannot throw — every operation is total on `NaN`), but that state is inert
rather than ended: every `NaN` comparison is false, so `isLive = false`
and `hasEnded = false`, and all numeric fields are `NaN`. -/
theorem C7_nan_inert (t : JSNum) (c : SimuliveConfig)
    (h : t.sub c.scheduledStartMs = JSNum.nan) :
    calculateSimuliveState t c =
      { isLive := false, hasEnded := false, currentPosition := JSNum.nan,
        secondsUntilStart := JSNum.nan, secondsRemaining := JSNum.nan } := by
  obtain ⟨ss, vd, si, dt⟩ := c
  cases t <;> cases ss <;> cases vd <;>
    first
      | rfl
      | simp [JSNum.sub] at h

/-- Witness for the amended C7: unparsable start, synced time 0,
duration 100 s. -/
theorem C7_nan_inert_witness :
    (num 0).sub
        (SimuliveConfig.scheduledStartMs
          { scheduledStartMs := JSNum.nan, videoDuration := num 100 })
      = JSNum.nan ∧
    calculateSimuliveState (num 0)
        { scheduledStartMs := JSNum.nan, videoDuration := num 100 } =
      { isLive := false, hasEnded := false, currentPosition := JSNum.nan,
        secondsUntilStart := JSNum.nan, secondsRemaining := JSNum.nan } :=
  ⟨rfl, C7_nan_inert (num 0)
    { scheduledStartMs := JSNum.nan, videoDuration := num 100 } rfl⟩
